import Mathlib

/-!
Verification of the `openrtb` bid data-transfer object (src/bid.go).

The file shallowly embeds the Go source: the `MultiString` flexible scalar
with its `UnmarshalJSON`/`MarshalJSON` methods, the `Bid` record with its
`encoding/json` struct tags, and `Bid.Validate`.

Modelling conventions:
- Go's `float64` is treated as an abstract type parameter `N`, and
  `strconv.FormatFloat(f, 'f', -1, 64)` as an abstract formatter
  `fmtFloat : N → String`: the repository contributes only the call, the
  IEEE-754 semantics live in the Go standard library.
- `json.Unmarshal(data, &value)` into `interface \x7b\x7d` yields one of the six
  dynamic shapes string / float64 / bool / nil / []interface / map; this
  parse outcome is the inductive `JValue`, and a failed parse is `none`.
- Methods on pointer receivers are explicit state passing: they return the
  result together with the post-state of the receiver.
-/

namespace OpenRTB

/-- Dynamic shape of a value produced by Go's `json.Unmarshal` into an
empty-interface variable: string, float64 (abstract `N`), bool, nil
(JSON null), `[]interface` (array) or `map[string]interface` (object). -/
inductive JValue (N : Type) where
  | jstring (s : String)
  | jnumber (n : N)
  | jbool (b : Bool)
  | jnull
  | jarray (elems : List (JValue N))
  | jobject (fields : List (String × JValue N))

/-- Result of `reflect.TypeOf(value).String()` on a decoded value.
`reflect.TypeOf` of a nil interface (JSON null) returns a nil
`reflect.Type`, on which the `String()` call dereferences a nil pointer:
that case has no name and is `none`. -/
def reflectTypeName {N : Type} : JValue N → Option String
  | .jstring _ => some "string"
  | .jnumber _ => some "float64"
  | .jbool _ => some "bool"
  | .jnull => none
  | .jarray _ => some "[]interface \x7b\x7d"
  | .jobject _ => some "map[string]interface \x7b\x7d"

/-- Go's `type MultiString string`: a string wrapper. -/
structure MultiString where
  val : String
deriving DecidableEq

/-- Outcome of `MultiString.UnmarshalJSON`: normal return with nil error
(`ok`), the error propagated from `json.Unmarshal` on malformed data
(`jsonError`), the `errors.New("unknown type: " + ...)` error
(`decodeError`), or a runtime panic (`panicked`). -/
inductive UnmarshalOutcome where
  | ok
  | jsonError
  | decodeError (msg : String)
  | panicked
deriving DecidableEq

/-- Embedding of `func (s *MultiString) UnmarshalJSON(data []byte) error`
(src/bid.go:19-36). The input is the outcome of `json.Unmarshal`:
`none` when that call itself errors (the method returns the error with the
receiver untouched), otherwise the decoded dynamic value. A string is
stored verbatim; a float64 is stored as `fmtFloat` of it (the
`strconv.FormatFloat(v, 'f', -1, 64)` call); the default branch builds
the "unknown type" error from `reflect.TypeOf(value).String()`, which
panics when the value is the nil interface (JSON null). The returned pair
is (outcome, post-state of the receiver). -/
def MultiString.unmarshalJSON {N : Type} (fmtFloat : N → String)
    (s : MultiString) (input : Option (JValue N)) :
    UnmarshalOutcome × MultiString :=
  match input with
  | none => (.jsonError, s)
  | some v =>
    match v with
    | .jstring str => (.ok, ⟨str⟩)
    | .jnumber n => (.ok, ⟨fmtFloat n⟩)
    | other =>
      match reflectTypeName other with
      | some name => (.decodeError ("unknown type: " ++ name), s)
      | none => (.panicked, s)

/-- Embedding of `func (s *MultiString) MarshalJSON() ([]byte, error)`
(src/bid.go:38-40), whose body is `[]byte(fmt.Sprintf("%q", s)), nil`.
`MultiString` has the `String()` method (value receiver, so it is in the
method set of `*MultiString`), and the `fmt` package resolves the `%q`
verb through that `Stringer` before quoting, so the produced bytes are
the stored text quoted; the quoting routine itself is the standard
library's and enters as the parameter `q`. The second component is the
returned error, always nil (`none`). -/
def MultiString.marshalJSON (q : String → String) (s : MultiString) :
    String × Option String :=
  (q s.val, none)

/-- Extension field type. Modelled from the spec: the type `Extension`
is referenced by `Bid` (src/bid.go:74) but declared elsewhere in the
repository; per the spec it is "an open-ended extension container for
vendor-specific fields (arbitrary structured data, opaque to this
record)" that is omitted from the wire format when empty. It is modelled
as an optional opaque payload, `none` standing for the empty value. -/
def Extension : Type := Option String

instance : DecidableEq Extension :=
  inferInstanceAs (DecidableEq (Option String))

/-- Embedding of `type Bid struct` (src/bid.go:53-75). The `float64`
price is the abstract type `N`; every other field keeps its Go type
(`string` as `String`, `[]string` as `List String`, `[]int` as
`List Int`, `int` as `Int`, `MultiString`, `Extension`). -/
structure Bid (N : Type) where
  ID : String
  ImpID : String
  Price : N
  AdID : String
  NURL : String
  AdMarkup : String
  AdvDomain : List String
  Bundle : String
  IURL : String
  CampaignID : MultiString
  CreativeID : String
  Cat : List String
  Attr : List Int
  API : Int
  Protocol : Int
  QAGMediaRating : Int
  DealID : String
  H : Int
  W : Int
  Exp : Int
  Ext : Extension

/-- One optional serialized field: `encoding/json` with an `omitempty`
tag drops the field when its value is empty, otherwise emits its wire
name. `isEmpty` is the field's emptiness condition per `encoding/json`
(length zero for strings and slices, zero for ints, absent payload for
the extension). -/
def omitIfEmpty (isEmpty : Prop) [Decidable isEmpty] (name : String) : List String :=
  if isEmpty then [] else [name]

/-- The §6 wire names, in the declaration order of the struct tags of
src/bid.go:54-74. -/
def wireNames : List String :=
  ["id", "impid", "price", "adid", "nurl", "adm", "adomain", "bundle",
   "iurl", "cid", "crid", "cat", "attr", "api", "protocol",
   "qagmediarating", "dealid", "h", "w", "exp", "ext"]

/-- The keys present in the `encoding/json` serialization of a `Bid`,
in struct declaration order, read off the tags of src/bid.go:54-74:
`id`, `impid` and `price` carry no `omitempty` and are always emitted;
every other field carries `omitempty` and is emitted exactly when its
value is non-empty in the `encoding/json` sense. -/
def Bid.marshalledKeys {N : Type} (bid : Bid N) : List String :=
  ["id", "impid", "price"]
  ++ omitIfEmpty (bid.AdID = "") "adid"
  ++ omitIfEmpty (bid.NURL = "") "nurl"
  ++ omitIfEmpty (bid.AdMarkup = "") "adm"
  ++ omitIfEmpty (bid.AdvDomain = []) "adomain"
  ++ omitIfEmpty (bid.Bundle = "") "bundle"
  ++ omitIfEmpty (bid.IURL = "") "iurl"
  ++ omitIfEmpty (bid.CampaignID.val = "") "cid"
  ++ omitIfEmpty (bid.CreativeID = "") "crid"
  ++ omitIfEmpty (bid.Cat = []) "cat"
  ++ omitIfEmpty (bid.Attr = []) "attr"
  ++ omitIfEmpty (bid.API = 0) "api"
  ++ omitIfEmpty (bid.Protocol = 0) "protocol"
  ++ omitIfEmpty (bid.QAGMediaRating = 0) "qagmediarating"
  ++ omitIfEmpty (bid.DealID = "") "dealid"
  ++ omitIfEmpty (bid.H = 0) "h"
  ++ omitIfEmpty (bid.W = 0) "w"
  ++ omitIfEmpty (bid.Exp = 0) "exp"
  ++ omitIfEmpty (bid.Ext = none) "ext"

/-- A bid with the given ID and ImpID and every other field at its Go
zero value; the price type is `Unit` since no claim depends on it. -/
def mkSimpleBid (i imp : String) : Bid Unit :=
  ⟨i, imp, (), "", "", "", [], "", "", ⟨""⟩, "", [], [], 0, 0, 0, "", 0, 0, 0, none⟩

/-- A fully-populated bid: every optional field non-empty. -/
def populatedBid : Bid Unit :=
  ⟨"b1", "i1", (), "ad1", "nurl1", "adm1", ["adv.example.com"], "bundle1",
   "iurl1", ⟨"123"⟩, "crid1", ["IAB1"], [1, 2], 3, 2, 1, "deal1",
   250, 300, 30, some "x"⟩

/-- A bid whose ID is missing (empty) but whose ImpID is set. -/
def bidMissingID : Bid Unit := mkSimpleBid "" "x123"

/-- A bid whose ID and ImpID are a single blank each. -/
def bidBlankIDs : Bid Unit := mkSimpleBid " " " "

/-- The two validation errors of src/bid.go:12-15. -/
inductive ValidationError where
  | ErrInvalidBidNoID
  | ErrInvalidBidNoImpID
deriving DecidableEq

/-- Embedding of `func (bid *Bid) Validate() error` (src/bid.go:78-86):
`if bid.ID == "" { return ErrInvalidBidNoID } else if bid.ImpID == ""
{ return ErrInvalidBidNoImpID }; return nil`. The receiver is a pointer
but the body performs no assignment, so the explicit state passing
returns the unchanged receiver in every branch; the pair is
(returned error, post-state). -/
def Bid.Validate {N : Type} (bid : Bid N) : Option ValidationError × Bid N :=
  if bid.ID = "" then (some .ErrInvalidBidNoID, bid)
  else if bid.ImpID = "" then (some .ErrInvalidBidNoImpID, bid)
  else (none, bid)

/-- One call of `Validate` on the receiver state, keeping only the
post-state of the receiver. -/
def validateStep {N : Type} (b : Bid N) : Bid N := (Bid.Validate b).2

theorem mem_omitIfEmpty (p : Prop) [Decidable p] (x y : String) :
    y ∈ omitIfEmpty p x ↔ ¬p ∧ y = x := by
  by_cases h : p <;> simp [omitIfEmpty, h]

theorem omitIfEmpty_sublist (p : Prop) [Decidable p] (x : String) :
    (omitIfEmpty p x).Sublist [x] := by
  by_cases h : p <;> simp [omitIfEmpty, h]

theorem validate_snd_eq {N : Type} (bid : Bid N) : (Bid.Validate bid).2 = bid := by
  unfold Bid.Validate
  split
  · rfl
  · split
    · rfl
    · rfl

theorem marshalledKeys_sublist_wireNames {N : Type} (bid : Bid N) :
    (Bid.marshalledKeys bid).Sublist wireNames :=
  ((((((((((((((((((List.Sublist.refl ["id", "impid", "price"]).append
    (omitIfEmpty_sublist _ "adid")).append
    (omitIfEmpty_sublist _ "nurl")).append
    (omitIfEmpty_sublist _ "adm")).append
    (omitIfEmpty_sublist _ "adomain")).append
    (omitIfEmpty_sublist _ "bundle")).append
    (omitIfEmpty_sublist _ "iurl")).append
    (omitIfEmpty_sublist _ "cid")).append
    (omitIfEmpty_sublist _ "crid")).append
    (omitIfEmpty_sublist _ "cat")).append
    (omitIfEmpty_sublist _ "attr")).append
    (omitIfEmpty_sublist _ "api")).append
    (omitIfEmpty_sublist _ "protocol")).append
    (omitIfEmpty_sublist _ "qagmediarating")).append
    (omitIfEmpty_sublist _ "dealid")).append
    (omitIfEmpty_sublist _ "h")).append
    (omitIfEmpty_sublist _ "w")).append
    (omitIfEmpty_sublist _ "exp")).append
    (omitIfEmpty_sublist _ "ext")

/-- Claim C1: for every `Bid`, `Validate` returns the missing-ID error
when `ID` is empty; otherwise the missing-impression-ID error when
`ImpID` is empty; otherwise success — in that order, one distinct error
per failing condition, at most one error per call, and no field other
than `ID` and `ImpID` (any price type included) affects the result. -/
theorem bid_validate_checks_in_order {N : Type} (bid : Bid N) :
    (bid.ID = "" → bid.Validate = (some .ErrInvalidBidNoID, bid)) ∧
    (bid.ID ≠ "" → bid.ImpID = "" → bid.Validate = (some .ErrInvalidBidNoImpID, bid)) ∧
    (bid.ID ≠ "" → bid.ImpID ≠ "" → bid.Validate = (none, bid)) ∧
    (∀ (M : Type) (b2 : Bid M), b2.ID = bid.ID → b2.ImpID = bid.ImpID →
      (Bid.Validate b2).1 = (Bid.Validate bid).1) := by
  refine ⟨fun h1 => by simp [Bid.Validate, h1],
          fun h1 h2 => by simp [Bid.Validate, h1, h2],
          fun h1 h2 => by simp [Bid.Validate, h1, h2],
          fun M b2 e1 e2 => ?_⟩
  by_cases h1 : bid.ID = "" <;> by_cases h2 : bid.ImpID = "" <;>
    simp [Bid.Validate, e1, e2, h1, h2]

/-- Witness for C1 at a concrete bid with empty ID. -/
theorem bid_validate_checks_in_order_witness :
    Bid.Validate bidMissingID = (some ValidationError.ErrInvalidBidNoID, bidMissingID) :=
  (bid_validate_checks_in_order bidMissingID).1 rfl

/-- Claim C2 evaluation: decoding a boolean, an array or an object into
`MultiString` returns the "unknown type" error naming the Go runtime
type and leaves the receiver untouched, but decoding JSON null panics
(`reflect.TypeOf(nil)` is a nil `reflect.Type` and its `String()` call
dereferences a nil pointer) instead of returning the claimed
DecodeError. -/
theorem multiString_unmarshal_nonscalar_eval :
    MultiString.unmarshalJSON (fun _ : Unit => "") ⟨"old"⟩ (some (.jbool true)) =
      (.decodeError "unknown type: bool", ⟨"old"⟩) ∧
    MultiString.unmarshalJSON (fun _ : Unit => "") ⟨"old"⟩ (some (.jarray [])) =
      (.decodeError "unknown type: []interface \x7b\x7d", ⟨"old"⟩) ∧
    MultiString.unmarshalJSON (fun _ : Unit => "") ⟨"old"⟩ (some (.jobject [])) =
      (.decodeError "unknown type: map[string]interface \x7b\x7d", ⟨"old"⟩) ∧
    MultiString.unmarshalJSON (fun _ : Unit => "") ⟨"old"⟩ (some .jnull) =
      (.panicked, ⟨"old"⟩) :=
  ⟨rfl, rfl, rfl, rfl⟩

/-- Claim C3: decoding a text value into `MultiString` succeeds and
stores the input text verbatim, whatever the previous receiver state and
whatever the number formatter. -/
theorem multiString_unmarshal_string_verbatim {N : Type} (fmtFloat : N → String)
    (old : MultiString) (t : String) :
    MultiString.unmarshalJSON fmtFloat old (some (.jstring t)) = (.ok, ⟨t⟩) := rfl

/-- Claim C5: `MarshalJSON` emits exactly the stored text passed through
the quoting routine, with nil error, and depends only on the stored
text — two `MultiString` values with the same stored text (whatever the
origin of each) marshal identically. -/
theorem multiString_marshal_quotes_stored (q : String → String) (s : MultiString) :
    MultiString.marshalJSON q s = (q s.val, none) ∧
    ∀ t : MultiString, t.val = s.val →
      MultiString.marshalJSON q t = MultiString.marshalJSON q s :=
  ⟨rfl, fun t h => by simp [MultiString.marshalJSON, h]⟩

/-- Witness for C5: a concrete quote routine and the stored text "123",
once written directly and once produced by decoding a numeric source. -/
theorem multiString_marshal_quotes_stored_witness :
    MultiString.marshalJSON (fun x => "\"" ++ x ++ "\"") ⟨"123"⟩ = ("\"123\"", none) ∧
    MultiString.marshalJSON (fun x => "\"" ++ x ++ "\"")
        (MultiString.unmarshalJSON (fun _ : Unit => "123") ⟨""⟩ (some (.jnumber ()))).2 =
      MultiString.marshalJSON (fun x => "\"" ++ x ++ "\"") ⟨"123"⟩ :=
  ⟨(multiString_marshal_quotes_stored (fun x => "\"" ++ x ++ "\"") ⟨"123"⟩).1,
   (multiString_marshal_quotes_stored (fun x => "\"" ++ x ++ "\"") ⟨"123"⟩).2 _ rfl⟩

/-- Claim C6: the serialization of any `Bid` uses only the §6 wire
names, in declaration order (`Sublist wireNames`); `id`, `impid` and
`price` are always present; each optional field is present exactly when
its value is non-empty; and the fully-populated bid yields exactly the
§6 list. -/
theorem bid_marshal_wire_names :
    (∀ (N : Type) (bid : Bid N),
      (Bid.marshalledKeys bid).Sublist wireNames ∧
      "id" ∈ Bid.marshalledKeys bid ∧
      "impid" ∈ Bid.marshalledKeys bid ∧
      "price" ∈ Bid.marshalledKeys bid ∧
      ("adid" ∈ Bid.marshalledKeys bid ↔ bid.AdID ≠ "") ∧
      ("nurl" ∈ Bid.marshalledKeys bid ↔ bid.NURL ≠ "") ∧
      ("adm" ∈ Bid.marshalledKeys bid ↔ bid.AdMarkup ≠ "") ∧
      ("adomain" ∈ Bid.marshalledKeys bid ↔ bid.AdvDomain ≠ []) ∧
      ("bundle" ∈ Bid.marshalledKeys bid ↔ bid.Bundle ≠ "") ∧
      ("iurl" ∈ Bid.marshalledKeys bid ↔ bid.IURL ≠ "") ∧
      ("cid" ∈ Bid.marshalledKeys bid ↔ bid.CampaignID.val ≠ "") ∧
      ("crid" ∈ Bid.marshalledKeys bid ↔ bid.CreativeID ≠ "") ∧
      ("cat" ∈ Bid.marshalledKeys bid ↔ bid.Cat ≠ []) ∧
      ("attr" ∈ Bid.marshalledKeys bid ↔ bid.Attr ≠ []) ∧
      ("api" ∈ Bid.marshalledKeys bid ↔ bid.API ≠ 0) ∧
      ("protocol" ∈ Bid.marshalledKeys bid ↔ bid.Protocol ≠ 0) ∧
      ("qagmediarating" ∈ Bid.marshalledKeys bid ↔ bid.QAGMediaRating ≠ 0) ∧
      ("dealid" ∈ Bid.marshalledKeys bid ↔ bid.DealID ≠ "") ∧
      ("h" ∈ Bid.marshalledKeys bid ↔ bid.H ≠ 0) ∧
      ("w" ∈ Bid.marshalledKeys bid ↔ bid.W ≠ 0) ∧
      ("exp" ∈ Bid.marshalledKeys bid ↔ bid.Exp ≠ 0) ∧
      ("ext" ∈ Bid.marshalledKeys bid ↔ bid.Ext ≠ none)) ∧
    Bid.marshalledKeys populatedBid = wireNames := by
  constructor
  · intro N bid
    refine ⟨marshalledKeys_sublist_wireNames bid, ?_⟩
    simp [Bid.marshalledKeys, mem_omitIfEmpty]
  · rfl

/-- Witness for C6: the fully-populated bid emits exactly the §6 wire
names. -/
theorem bid_marshal_wire_names_witness :
    Bid.marshalledKeys populatedBid = wireNames :=
  bid_marshal_wire_names.2

/-- Claim C7: `Validate` mutates no field — the post-state of the
receiver equals the pre-state — and calling it any number of times
leaves the record unchanged and keeps returning the same result. -/
theorem bid_validate_pure {N : Type} (bid : Bid N) :
    (Bid.Validate bid).2 = bid ∧
    ∀ n : Nat, Nat.iterate validateStep n bid = bid ∧
      (Bid.Validate (Nat.iterate validateStep n bid)).1 = (Bid.Validate bid).1 := by
  refine ⟨validate_snd_eq bid, fun n => ?_⟩
  have hit : Nat.iterate validateStep n bid = bid := by
    induction n with
    | zero => rfl
    | succ k ih =>
      rw [Function.iterate_succ_apply', ih]
      exact validate_snd_eq bid
  exact ⟨hit, by rw [hit]⟩

/-- Claim C8: whenever `UnmarshalJSON` returns an error — the parse
error of `json.Unmarshal` or the unknown-type decode error — the
receiver's stored text is unchanged. -/
theorem multiString_unmarshal_error_frame {N : Type} (fmtFloat : N → String)
    (old : MultiString) (input : Option (JValue N))
    (h : (MultiString.unmarshalJSON fmtFloat old input).1 = .jsonError ∨
         ∃ msg, (MultiString.unmarshalJSON fmtFloat old input).1 = .decodeError msg) :
    (MultiString.unmarshalJSON fmtFloat old input).2 = old := by
  cases input with
  | none => rfl
  | some v =>
    cases v with
    | jstring t => exact absurd h (by simp [MultiString.unmarshalJSON])
    | jnumber n => exact absurd h (by simp [MultiString.unmarshalJSON])
    | jbool b => rfl
    | jnull => rfl
    | jarray elems => rfl
    | jobject fields => rfl

/-- Witness for C8: the boolean input errors and the stored text "keep"
survives. -/
theorem multiString_unmarshal_error_frame_witness :
    (MultiString.unmarshalJSON (fun _ : Unit => "") ⟨"keep"⟩ (some (.jbool true))).2 = ⟨"keep"⟩ :=
  multiString_unmarshal_error_frame (fun _ : Unit => "") ⟨"keep"⟩ (some (.jbool true))
    (Or.inr ⟨"unknown type: bool", rfl⟩)

/-- Claim C9: `MarshalJSON` never fails — for every `MultiString` and
every quoting routine it returns some byte sequence together with a nil
error. -/
theorem multiString_marshal_never_fails (q : String → String) (s : MultiString) :
    ∃ bytes, MultiString.marshalJSON q s = (bytes, none) :=
  ⟨q s.val, rfl⟩

/-- Claim C10: `Validate` tests only for the empty string, not for blank
content — any bid whose `ID` and `ImpID` both have non-zero length,
whitespace-only included, validates successfully. -/
theorem bid_validate_empty_only {N : Type} (bid : Bid N)
    (h1 : bid.ID.length ≠ 0) (h2 : bid.ImpID.length ≠ 0) :
    (Bid.Validate bid).1 = none := by
  have e1 : bid.ID ≠ "" := fun e => h1 (by rw [e]; rfl)
  have e2 : bid.ImpID ≠ "" := fun e => h2 (by rw [e]; rfl)
  simp [Bid.Validate, e1, e2]

/-- Witness for C10: the bid whose ID and ImpID are a single blank each
is accepted. -/
theorem bid_validate_empty_only_witness :
    (Bid.Validate bidBlankIDs).1 = none :=
  bid_validate_empty_only bidBlankIDs (by decide) (by decide)

end OpenRTB
